import Mathlib

/-!
Verification of the user-management REST API (`src/backend/routes/users.js`).

The source file concatenates three variants of the same Express router;
we embed each variant separately and suffix its definitions `V1`, `V2`,
`V3` in source order.  JavaScript objects coming from JSON bodies are
embedded as structures with `Option` fields (a `none` field is an absent
key; JSON bodies cannot contain `undefined`, and a constructed object
key holding `undefined` is also embedded as `none`, because both
`JSON.stringify` and `res.json` drop such keys).

Library primitives used by the code (`validator.js` checks,
`JSON.parse`, and JavaScript string/number coercions) are not part of
this repository; they are embedded as small total functions, each with a
doc comment stating exactly which JavaScript behaviour it covers, or are
taken as parameters where the claims do not depend on them.
-/

namespace UserApi

/-- Decides whether the first list is an initial segment of the second,
comparing characters with `==`. -/
def listLeads : List Char → List Char → Bool
  | [], _ => true
  | _ :: _, [] => false
  | a :: as, b :: bs => a == b && listLeads as bs

/-- Model of JavaScript `String.prototype.includes`: `strContains s sub`
is true when `sub` occurs contiguously inside `s`. -/
def strContains (s sub : String) : Bool :=
  (List.range (s.length + 1)).any (fun i => listLeads sub.data (s.data.drop i))

/-- ASCII lower-casing of one character (the case mapping JavaScript
`toLowerCase` applies on the ASCII inputs used by the claims). -/
def lowerChar (c : Char) : Char :=
  if 65 ≤ c.toNat && c.toNat ≤ 90 then Char.ofNat (c.toNat + 32) else c

/-- Model of JavaScript `String.prototype.toLowerCase`, restricted to
the ASCII case mapping (all inputs in the claims are ASCII). -/
def lowerStr (s : String) : String := String.mk (s.data.map lowerChar)

/-- The whitespace characters recognised by the model of
`String.prototype.trim` (the claims use ASCII whitespace only). -/
def wsChar (c : Char) : Bool :=
  c == ' ' || c == '\t' || c == '\n' || c == '\r'

/-- Model of JavaScript `String.prototype.trim`, restricted to ASCII
whitespace. -/
def trimStr (s : String) : String :=
  String.mk (((s.data.dropWhile wsChar).reverse.dropWhile wsChar).reverse)

/-- Whether a string is empty. -/
def strEmpty (s : String) : Bool := s.data.isEmpty

/-- Value of a run of decimal digit characters. -/
def digitsVal (l : List Char) : Nat :=
  l.foldl (fun a c => a * 10 + (c.toNat - 48)) 0

/-- Model of JavaScript `parseInt` on the route parameters used by the
claims: a maximal leading run of decimal digits is parsed; strings
without a leading digit give `NaN`, embedded as `none`.  Leading
whitespace, sign characters and radix prefixes are outside the model. -/
def parseIntM (s : String) : Option Nat :=
  let ds := s.data.takeWhile Char.isDigit
  if ds.isEmpty then none else some (digitsVal ds)

/-- Model of JavaScript `Number` coercion on the route parameters used
by the claims: the empty string gives `0`, an all-digit string gives its
value, anything else gives `NaN`, embedded as `none`.  Whitespace, sign
characters, radix prefixes and fractions are outside the model. -/
def jsToNumber (s : String) : Option Nat :=
  if s.data.isEmpty then some 0
  else if s.data.all Char.isDigit then some (digitsVal s.data) else none

/-- Truthiness of an optional JavaScript string: `undefined` and the
empty string are falsy. -/
def jsTruthy (o : Option String) : Bool :=
  match o with
  | some s => !(strEmpty s)
  | none => false

/-- JavaScript `a || b` on two optional strings (used for fields such as
`req.body.phone || users[index].phone`). -/
def jsOrOpt (a b : Option String) : Option String :=
  if jsTruthy a then a else b

/-- JavaScript `a || b || ""` collapsed to a plain string (used by the
variant-2 create handler for address subfields). -/
def jsOr2 (a b : Option String) : String :=
  if jsTruthy a then a.getD "" else if jsTruthy b then b.getD "" else ""

/-- Model of `validator.js` `escape` (the `body(\x27*\x27).escape()`
sanitizer of variant 1) on string fields: the five HTML-significant
characters are replaced by entities.  Non-string fields are left
unchanged by this embedding. -/
def escapeChar (c : Char) : List Char :=
  if c = '&' then "&amp;".data
  else if c = '<' then "&lt;".data
  else if c = '>' then "&gt;".data
  else if c = '"' then "&quot;".data
  else if c = Char.ofNat 39 then "&#x27;".data
  else if c = '/' then "&#x2F;".data
  else [c]

/-- `escape` lifted to strings. -/
def escapeStr (s : String) : String :=
  String.mk (s.data.flatMap escapeChar)

/-- Splitting a character list at every occurrence of a separator. -/
def splitChar (sep : Char) : List Char → List (List Char)
  | [] => [[]]
  | c :: cs =>
    let r := splitChar sep cs
    if c == sep then [] :: r
    else
      match r with
      | h :: t => (c :: h) :: t
      | [] => [[c]]

/-- Modelled from the spec: `validator.js` `isEmail` is not part of this
repository; the spec only requires "valid email syntax".  We model it as
one `@` separating a non-empty local part from a non-empty domain that
contains a dot not at either end.  All claims use plain addresses such
as `ann@x.com` on which this model and the library agree. -/
def isEmailM (s : String) : Bool :=
  match splitChar '@' s.data with
  | [loc, dom] =>
      !loc.isEmpty && !dom.isEmpty && dom.contains '.' &&
      !(dom.headD ' ' == '.') && !(dom.getLastD ' ' == '.')
  | _ => false

/-- Modelled from the spec: `validator.js` `normalizeEmail` (used by the
variant-1 chains) is not in this repository; with its default options it
lower-cases the address, which is how we model it.  All claim inputs are
already lower case, so the model acts as the identity there. -/
def normalizeEmailM (s : String) : String := lowerStr s

/-- Character class of the variant-1 username rule
`/^[a-zA-Z0-9_.-]+$/`. -/
def usernameCharV1 (c : Char) : Bool :=
  c.isAlpha || c.isDigit || c = '_' || c = '.' || c = '-'

/-- Character class of the variant-2 username rule `/^[a-zA-Z0-9_]+$/`. -/
def usernameCharV2 (c : Char) : Bool :=
  c.isAlpha || c.isDigit || c = '_'

/-- `geo` sub-object of an address (variant 2 materialises it on
create). -/
structure Geo where
  lat : Option String
  lng : Option String
deriving DecidableEq

/-- `company` sub-object; variant 2 materialises it on create. -/
structure Company where
  name : Option String
  catchPhrase : Option String
  bs : Option String
deriving DecidableEq

/-- Address sub-object.  A `none` field is an absent key. -/
structure Address where
  street : Option String
  city : Option String
  zipcode : Option String
  geo : Option Geo
deriving DecidableEq

/-- A stored record id.  Variants 1 and 2 create string ids
(`Date.now().toString()`), variant 3 creates number ids (`max + 1`);
`nan` embeds the JavaScript `NaN` produced by variant 3 when an existing
id does not coerce to a number.  `NaN` compares unequal to everything,
including itself, under both `==` and `===`. -/
inductive Id where
  | str (s : String)
  | num (n : Nat)
  | nan
deriving DecidableEq

/-- A stored user record.  A `none` field is an absent key.  Unknown
passthrough keys (other than the ones below) are outside the model; no
claim depends on them. -/
structure User where
  id : Id
  name : Option String
  username : Option String
  email : Option String
  address : Option Address
  phone : Option String
  website : Option String
  company : Option Company
  createdAt : Option String
  updatedAt : Option String
deriving DecidableEq

/-- A JSON request body.  `street`, `city` and `zipcode` are the
top-level fallback keys read by the variant-2 create handler.  `id`
models a body that tries to supply its own id. -/
structure Body where
  id : Option Id
  name : Option String
  username : Option String
  email : Option String
  address : Option Address
  phone : Option String
  website : Option String
  company : Option Company
  street : Option String
  city : Option String
  zipcode : Option String
deriving DecidableEq

/-- The body with every key absent. -/
def emptyBody : Body :=
  ⟨none, none, none, none, none, none, none, none, none, none, none⟩

/-- JavaScript `===` between a stored id and the (string) route
parameter. -/
def strictEqId (i : Id) (p : String) : Bool :=
  match i with
  | .str s => s == p
  | _ => false

/-- JavaScript `===` between a stored id and `parseInt(param)`. -/
def strictEqIdNum (i : Id) (p : String) : Bool :=
  match i with
  | .num n => parseIntM p == some n
  | _ => false

/-- JavaScript `==` between a stored id and the (string) route
parameter: string ids compare as strings, number ids compare with the
parameter coerced by `Number`, and `NaN` is unequal to everything. -/
def looseEqId (i : Id) (p : String) : Bool :=
  match i with
  | .str s => s == p
  | .num n => jsToNumber p == some n
  | .nan => false

/-- One entry of a validation failure, as produced by
`errors.array()` (variant 1 calls the field key `param`, variant 2 calls
it `field`; both carry the field path and the message). -/
structure FieldError where
  field : String
  message : String
deriving DecidableEq

/-- An HTTP response body, restricted to the shapes the routers
produce. -/
inductive RBody where
  | user (u : User)
  | users (l : List User)
  | errMsg (m : String)
  | errList (errs : List FieldError)
  | empty
deriving DecidableEq

/-- An HTTP response: status code and body.  Error envelopes
(`\x7berror\x7d` in variant 1, `\x7bstatus, message\x7d` in variants 2
and 3) are collapsed to the carried message. -/
structure Response where
  status : Nat
  body : RBody
deriving DecidableEq

/-- The value an express-validator chain with a leading `trim` validates
(a missing field is stringified to the empty string by the library). -/
def chainVal (o : Option String) : String := trimStr (o.getD "")

/-- Errors of the variant-1 `createUserValidation` chain list
(lines 60-85): `name` non-empty and at most 100 chars, `username`
non-empty, 3-30 chars, charset `[a-zA-Z0-9_.-]`, `email` non-empty and
well-formed, address subfields bounded. -/
def createErrorsV1 (b : Body) : List FieldError :=
  let n := chainVal b.name
  let u := chainVal b.username
  let e := chainVal b.email
  (if strEmpty n then [⟨"name", "Name is required"⟩] else []) ++
  (if n.length > 100 then [⟨"name", "Name must be less than 100 characters"⟩] else []) ++
  (if strEmpty u then [⟨"username", "Username is required"⟩] else []) ++
  (if u.length < 3 || u.length > 30 then
    [⟨"username", "Username must be between 3-30 characters"⟩] else []) ++
  (if !(u.data.all usernameCharV1) || strEmpty u then
    [⟨"username", "Username can only contain letters, numbers, underscores, periods, and hyphens"⟩] else []) ++
  (if strEmpty e then [⟨"email", "Email is required"⟩] else []) ++
  (if !(isEmailM e) then [⟨"email", "Please provide a valid email"⟩] else []) ++
  (match b.address with
   | none => []
   | some a =>
     (if (chainVal a.street).length > 200 then
       [⟨"address.street", "Street must be less than 200 characters"⟩] else []) ++
     (if (chainVal a.city).length > 100 then
       [⟨"address.city", "City must be less than 100 characters"⟩] else []) ++
     (if (chainVal a.zipcode).length > 20 then
       [⟨"address.zipcode", "Zipcode must be less than 20 characters"⟩] else []))

/-- Errors of the variant-1 `updateUserValidation` chain list
(lines 88-113): every field optional, the same bounds when present. -/
def updateErrorsV1 (b : Body) : List FieldError :=
  (match b.name with
   | none => []
   | some s =>
     if (trimStr s).length > 100 then
       [⟨"name", "Name must be less than 100 characters"⟩] else []) ++
  (match b.username with
   | none => []
   | some s =>
     let u := trimStr s
     (if u.length < 3 || u.length > 30 then
       [⟨"username", "Username must be between 3-30 characters"⟩] else []) ++
     (if !(u.data.all usernameCharV1) || strEmpty u then
       [⟨"username", "Username can only contain letters, numbers, underscores, periods, and hyphens"⟩] else [])) ++
  (match b.email with
   | none => []
   | some s =>
     if !(isEmailM (trimStr s)) then
       [⟨"email", "Please provide a valid email"⟩] else []) ++
  (match b.address with
   | none => []
   | some a =>
     (if (chainVal a.street).length > 200 then
       [⟨"address.street", "Street must be less than 200 characters"⟩] else []) ++
     (if (chainVal a.city).length > 100 then
       [⟨"address.city", "City must be less than 100 characters"⟩] else []) ++
     (if (chainVal a.zipcode).length > 20 then
       [⟨"address.zipcode", "Zipcode must be less than 20 characters"⟩] else []))

/-- Errors of the variant-2 `createUserValidation` chain list
(lines 323-337): `name` non-empty, `username` non-empty, at least
3 chars, charset `[a-zA-Z0-9_]` (no upper bound, no periods or
hyphens), `email` non-empty and well-formed. -/
def createErrorsV2 (b : Body) : List FieldError :=
  let n := chainVal b.name
  let u := chainVal b.username
  let e := chainVal b.email
  (if strEmpty n then [⟨"name", "Name is required"⟩] else []) ++
  (if strEmpty u then [⟨"username", "Username is required"⟩] else []) ++
  (if u.length < 3 then [⟨"username", "Username must be at least 3 characters"⟩] else []) ++
  (if !(u.data.all usernameCharV2) || strEmpty u then
    [⟨"username", "Username can only contain letters, numbers, and underscores"⟩] else []) ++
  (if strEmpty e then [⟨"email", "Email is required"⟩] else []) ++
  (if !(isEmailM e) then [⟨"email", "Please provide a valid email"⟩] else [])

/-- Errors of the variant-2 `updateUserValidation` chain list
(lines 339-353): every field optional, same rules when present. -/
def updateErrorsV2 (b : Body) : List FieldError :=
  (match b.name with
   | none => []
   | some s =>
     if strEmpty (trimStr s) then [⟨"name", "Name cannot be empty"⟩] else []) ++
  (match b.username with
   | none => []
   | some s =>
     let u := trimStr s
     (if u.length < 3 then [⟨"username", "Username must be at least 3 characters"⟩] else []) ++
     (if !(u.data.all usernameCharV2) || strEmpty u then
       [⟨"username", "Username can only contain letters, numbers, and underscores"⟩] else [])) ++
  (match b.email with
   | none => []
   | some s =>
     if !(isEmailM (trimStr s)) then [⟨"email", "Please provide a valid email"⟩] else [])

/-- Errors of the variant-3 `userValidationRules` chain list
(lines 615-622, used for both create and update): `name` and `username`
non-empty, `email` well-formed (no trim on `email`, no length or
charset rule on `username`). -/
def errorsV3 (b : Body) : List FieldError :=
  (if strEmpty (chainVal b.name) then [⟨"name", "Name is required"⟩] else []) ++
  (if strEmpty (chainVal b.username) then [⟨"username", "Username is required"⟩] else []) ++
  (if !(isEmailM (b.email.getD "")) then [⟨"email", "Valid email is required"⟩] else [])

/-- Sanitization applied to an address by the per-subfield `trim`
chains. -/
def sanitizeAddr (a : Address) : Address :=
  { a with
    street := a.street.map trimStr
    city := a.city.map trimStr
    zipcode := a.zipcode.map trimStr }

/-- Escape applied to a body id when it is a string (the variant-1
wildcard chain touches every top-level field). -/
def escapeId (i : Id) : Id :=
  match i with
  | .str s => .str (escapeStr s)
  | _ => i

/-- The variant-1 sanitizers, in chain order: `trim` on `name`,
`username`, `email`, `normalizeEmail` on `email`, `trim` on address
subfields, then `escape` on every top-level string field (nested
address fields are objects one level down and are not escaped). -/
def sanitizeV1 (b : Body) : Body :=
  { b with
    id := b.id.map escapeId
    name := b.name.map (fun s => escapeStr (trimStr s))
    username := b.username.map (fun s => escapeStr (trimStr s))
    email := b.email.map (fun s => escapeStr (normalizeEmailM (trimStr s)))
    address := b.address.map sanitizeAddr
    phone := b.phone.map escapeStr
    website := b.website.map escapeStr
    street := b.street.map escapeStr
    city := b.city.map escapeStr
    zipcode := b.zipcode.map escapeStr }

/-- The variant-2 sanitizers: `trim` on `name`, `username`, `email` and
the address subfields; no escaping, no email normalization. -/
def sanitizeV2 (b : Body) : Body :=
  { b with
    name := b.name.map trimStr
    username := b.username.map trimStr
    email := b.email.map trimStr
    address := b.address.map sanitizeAddr }

/-- The variant-3 sanitizers: `trim` on `name` and `username` and the
address subfields; `email` has no `trim` in variant 3. -/
def sanitizeV3 (b : Body) : Body :=
  { b with
    name := b.name.map trimStr
    username := b.username.map trimStr
    address := b.address.map sanitizeAddr }

/-- Object-spread semantics for one key: a key present in the spread
source (even holding an empty string) overrides, an absent key keeps the
target value. -/
def keyOr (bv ov : Option α) : Option α :=
  match bv with
  | some v => some v
  | none => ov

/-- The address with no keys. -/
def emptyAddr : Address := ⟨none, none, none, none⟩

/-- The company object with no keys. -/
def emptyCompany : Company := ⟨none, none, none⟩

/-- `\x7b...old, ...patch\x7d` on addresses, `old` possibly absent
(spreading `undefined` adds no keys). -/
def mergeAddr (old : Option Address) (patch : Address) : Address :=
  let oa := old.getD emptyAddr
  { street := keyOr patch.street oa.street
    city := keyOr patch.city oa.city
    zipcode := keyOr patch.zipcode oa.zipcode
    geo := keyOr patch.geo oa.geo }

/-- Variant-1 `GET /users/:id` (lines 145-159): finds by
`u.id === userId || u.id === parseInt(userId)`. -/
def getByIdV1 (users : List User) (param : String) : Response :=
  match users.find? (fun u => strictEqId u.id param || strictEqIdNum u.id param) with
  | some u => ⟨200, .user u⟩
  | none => ⟨404, .errMsg "User not found"⟩

/-- Variant-2 `GET /users/:id` (lines 410-423): finds by loose
`u.id == userId`. -/
def getByIdV2 (users : List User) (param : String) : Response :=
  match users.find? (fun u => looseEqId u.id param) with
  | some u => ⟨200, .user u⟩
  | none => ⟨404, .errMsg "User not found"⟩

/-- Variant-3 `GET /users/:id` (lines 654-667): finds by
`u.id === parseInt(req.params.id)`. -/
def getByIdV3 (users : List User) (param : String) : Response :=
  match users.find? (fun u => strictEqIdNum u.id param) with
  | some u => ⟨200, .user u⟩
  | none => ⟨404, .errMsg "User not found"⟩

/-- Reading a field the handler dereferences unconditionally: an absent
key raises a `TypeError` (embedded as `Except.error`), which the
router surfaces as a 500. -/
def fieldStr (o : Option String) : Except Unit String :=
  match o with
  | some s => .ok s
  | none => .error ()

/-- `Array.prototype.filter` with a predicate that can throw. -/
def filterE (p : α → Except Unit Bool) : List α → Except Unit (List α)
  | [] => .ok []
  | x :: xs =>
    match p x with
    | .error e => .error e
    | .ok true =>
      match filterE p xs with
      | .ok rest => .ok (x :: rest)
      | .error e => .error e
    | .ok false => filterE p xs

/-- The variant-1 search predicate (line 134): case-insensitive
substring match on `name` only. -/
def searchPredV1 (term : String) (u : User) : Except Unit Bool := do
  let n ← fieldStr u.name
  return strContains (lowerStr n) term

/-- The address part of the variant-2 search predicate
(`user.address && (...)` with `&&` guards on each subfield):
`street` and `city` are matched case-insensitively, `zipcode` is
matched without lowercasing against the lowercased query. -/
def addrMatch (term : String) (oa : Option Address) : Bool :=
  match oa with
  | none => false
  | some a =>
    (jsTruthy a.street && strContains (lowerStr (a.street.getD "")) term) ||
    (jsTruthy a.city && strContains (lowerStr (a.city.getD "")) term) ||
    (jsTruthy a.zipcode && strContains (a.zipcode.getD "") term)

/-- The variant-2 search predicate (lines 365-374): case-insensitive
substring match on `name`, `username`, `email`, `address.street` and
`address.city`; `address.zipcode` is matched case-sensitively against
the lowercased query, and empty subfields are skipped by the `&&`
guards. -/
def searchPredV2 (term : String) (u : User) : Except Unit Bool := do
  let n ← fieldStr u.name
  if strContains (lowerStr n) term then return true
  let un ← fieldStr u.username
  if strContains (lowerStr un) term then return true
  let em ← fieldStr u.email
  if strContains (lowerStr em) term then return true
  return addrMatch term u.address

/-- Variant-1 `GET /users/search` (lines 126-142): requires `q`,
filters on `name` only; a thrown `TypeError` reaches the error
middleware as a 500. -/
def searchV1 (users : List User) (q : Option String) : Response :=
  if !(jsTruthy q) then
    ⟨400, .errMsg "Search query parameter \"q\" is required"⟩
  else
    match filterE (searchPredV1 (lowerStr (q.getD ""))) users with
    | .ok rs => ⟨200, .users rs⟩
    | .error _ => ⟨500, .errMsg "Internal server error"⟩

/-- Variant-2 `GET /users/search` (lines 356-378). -/
def searchV2 (users : List User) (q : Option String) : Response :=
  if !(jsTruthy q) then
    ⟨400, .errMsg "Search query is required"⟩
  else
    match filterE (searchPredV2 (lowerStr (q.getD ""))) users with
    | .ok rs => ⟨200, .users rs⟩
    | .error _ => ⟨500, .errMsg "Internal server error"⟩

/-- The record the variant-1 create handler builds from the sanitized
body: `\x7b id: Date.now().toString(), ...req.body, createdAt, updatedAt \x7d`
(the body spread runs after `id:`, so a body `id` key overrides the
generated id). -/
def createdV1 (raw : Body) (clock : Nat) (nowIso : String) : User :=
  let b := sanitizeV1 raw
  { id := b.id.getD (.str (Nat.repr clock))
    name := b.name
    username := b.username
    email := b.email
    address := b.address
    phone := b.phone
    website := b.website
    company := b.company
    createdAt := some nowIso
    updatedAt := some nowIso }

/-- Variant-1 `POST /users` (lines 162-191).  `clock` is the value of
`Date.now()` in milliseconds and `nowIso` the ISO timestamp string. -/
def postV1 (users : List User) (raw : Body) (clock : Nat) (nowIso : String) :
    Response × List User :=
  let errs := createErrorsV1 raw
  if !errs.isEmpty then (⟨400, .errList errs⟩, users)
  else
    let b := sanitizeV1 raw
    match users.find? (fun u => u.username == b.username || u.email == b.email) with
    | some _ => (⟨400, .errMsg "User with this username or email already exists"⟩, users)
    | none =>
      let nu := createdV1 raw clock nowIso
      (⟨201, .user nu⟩, users ++ [nu])

/-- The record the variant-2 create handler builds from the sanitized
body: explicit fields only (so a body `id` cannot override the generated
id), `address` materialised with `geo` and empty-string defaults (the
top-level `street`, `city`, `zipcode` body keys are the `||` fallbacks),
`phone`, `website` and `company` defaulted, and no timestamps. -/
def createdV2 (raw : Body) (clock : Nat) : User :=
  let b := sanitizeV2 raw
  let baddr := b.address
  { id := .str (Nat.repr clock)
    name := b.name
    username := b.username
    email := b.email
    address := some
      { street := some (jsOr2 (baddr.bind fun a => a.street) b.street)
        city := some (jsOr2 (baddr.bind fun a => a.city) b.city)
        zipcode := some (jsOr2 (baddr.bind fun a => a.zipcode) b.zipcode)
        geo := some ((baddr.bind fun a => a.geo).getD ⟨some "", some ""⟩) }
    phone := some (jsOr2 b.phone none)
    website := some (jsOr2 b.website none)
    company := some (b.company.getD ⟨some "", some "", some ""⟩)
    createdAt := none
    updatedAt := none }

/-- Variant-2 `POST /users` (lines 427-477): duplicate check names the
conflicting field and answers 409. -/
def postV2 (users : List User) (raw : Body) (clock : Nat) :
    Response × List User :=
  let errs := createErrorsV2 raw
  if !errs.isEmpty then (⟨400, .errList errs⟩, users)
  else
    let b := sanitizeV2 raw
    match users.find? (fun u => u.username == b.username || u.email == b.email) with
    | some ex =>
      let fld := if ex.username == b.username then "username" else "email"
      (⟨409, .errMsg ("User with this " ++ fld ++ " already exists")⟩, users)
    | none =>
      let nu := createdV2 raw clock
      (⟨201, .user nu⟩, users ++ [nu])

/-- `Number` coercion of a stored id, as `Math.max` sees it in the
variant-3 create handler. -/
def idCoerce (i : Id) : Option Nat :=
  match i with
  | .num n => some n
  | .str s => jsToNumber s
  | .nan => none

/-- `Math.max(...users.map(u => u.id))` over a non-empty collection:
`NaN` (embedded as `none`) as soon as one id does not coerce.  Ids are
embedded as naturals, so the extra `0` seed does not change the
maximum. -/
def jsMaxIdsV3 (users : List User) : Option Nat :=
  users.foldr
    (fun u acc =>
      match idCoerce u.id, acc with
      | some n, some m => some (max n m)
      | _, _ => none)
    (some 0)

/-- The record the variant-3 create handler builds: generated id is the
numeric `max + 1` (or `1` on an empty collection, or `NaN` when an id
does not coerce); the body spread can override the generated id;
`address` defaults to the empty object. -/
def createdV3 (users : List User) (raw : Body) : User :=
  let b := sanitizeV3 raw
  let genId : Id :=
    if users.isEmpty then .num 1
    else
      match jsMaxIdsV3 users with
      | some m => .num (m + 1)
      | none => .nan
  { id := b.id.getD genId
    name := b.name
    username := b.username
    email := b.email
    address := some (b.address.getD emptyAddr)
    phone := b.phone
    website := b.website
    company := b.company
    createdAt := none
    updatedAt := none }

/-- Variant-3 `POST /users` (lines 670-691): no duplicate check. -/
def postV3 (users : List User) (raw : Body) : Response × List User :=
  let errs := errorsV3 raw
  if !errs.isEmpty then (⟨400, .errList errs⟩, users)
  else
    let nu := createdV3 users raw
    (⟨201, .user nu⟩, users ++ [nu])

/-- Variant-1 `PUT /users/:id` (lines 194-230): finds strictly by
string id; the duplicate check runs only when the body has a truthy
`username` or `email`; the update is a top-level spread (a body `id`
key overrides the stored id and a body `address` replaces the stored
address wholesale) with `updatedAt` refreshed. -/
def putV1 (users : List User) (param : String) (raw : Body) (nowIso : String) :
    Response × List User :=
  let errs := updateErrorsV1 raw
  if !errs.isEmpty then (⟨400, .errList errs⟩, users)
  else
    let b := sanitizeV1 raw
    match users.findIdx? (fun u => strictEqId u.id param) with
    | none => (⟨404, .errMsg "User not found"⟩, users)
    | some i =>
      match users[i]? with
      | none => (⟨404, .errMsg "User not found"⟩, users)
      | some old =>
        let dup :=
          if jsTruthy b.username || jsTruthy b.email then
            users.any (fun u =>
              !(strictEqId u.id param) &&
              (u.username == b.username || u.email == b.email))
          else false
        if dup then
          (⟨400, .errMsg "Username or email is already in use by another user"⟩, users)
        else
          let nu : User :=
            { id := b.id.getD old.id
              name := keyOr b.name old.name
              username := keyOr b.username old.username
              email := keyOr b.email old.email
              address := keyOr b.address old.address
              phone := keyOr b.phone old.phone
              website := keyOr b.website old.website
              company := keyOr b.company old.company
              createdAt := old.createdAt
              updatedAt := some nowIso }
          (⟨200, .user nu⟩, users.set i nu)

/-- Variant-2 `PUT /users/:id` (lines 480-557): finds loosely; the
duplicate check always runs (over every other index); the updated
record is rebuilt with `name`, `username` and `email` taken directly
from the body (absent keys become absent in the result), falsy-fallback
for `phone`, `website` and `company`, a key-by-key address merge, a
preserved id, and no timestamps. -/
def putV2 (users : List User) (param : String) (raw : Body) :
    Response × List User :=
  let errs := updateErrorsV2 raw
  if !errs.isEmpty then (⟨400, .errList errs⟩, users)
  else
    let b := sanitizeV2 raw
    match users.findIdx? (fun u => looseEqId u.id param) with
    | none => (⟨404, .errMsg "User not found"⟩, users)
    | some i =>
      match users[i]? with
      | none => (⟨404, .errMsg "User not found"⟩, users)
      | some old =>
        let dup := users.enum.any (fun ju =>
          ju.1 ≠ i && (ju.2.username == b.username || ju.2.email == b.email))
        if dup then
          (⟨409, .errMsg "Username or email already in use"⟩, users)
        else
          let nu : User :=
            { id := old.id
              name := b.name
              username := b.username
              email := b.email
              address := some (mergeAddr old.address (b.address.getD emptyAddr))
              phone := jsOrOpt b.phone old.phone
              website := jsOrOpt b.website old.website
              company := some ((keyOr b.company old.company).getD emptyCompany)
              createdAt := none
              updatedAt := none }
          (⟨200, .user nu⟩, users.set i nu)

/-- Variant-3 `PUT /users/:id` (lines 694-722): the full create
validation applies (so `name`, `username` and `email` are required even
on update); finds by `parseInt`; no duplicate check; top-level spread
with the id forced back to the stored id and a key-by-key address
merge. -/
def putV3 (users : List User) (param : String) (raw : Body) :
    Response × List User :=
  let errs := errorsV3 raw
  if !errs.isEmpty then (⟨400, .errList errs⟩, users)
  else
    let b := sanitizeV3 raw
    match users.findIdx? (fun u => strictEqIdNum u.id param) with
    | none => (⟨404, .errMsg "User not found"⟩, users)
    | some i =>
      match users[i]? with
      | none => (⟨404, .errMsg "User not found"⟩, users)
      | some old =>
        let nu : User :=
          { id := old.id
            name := keyOr b.name old.name
            username := keyOr b.username old.username
            email := keyOr b.email old.email
            address := some (mergeAddr old.address (b.address.getD emptyAddr))
            phone := keyOr b.phone old.phone
            website := keyOr b.website old.website
            company := keyOr b.company old.company
            createdAt := old.createdAt
            updatedAt := old.updatedAt }
        (⟨200, .user nu⟩, users.set i nu)

/-- Variant-1 `DELETE /users/:id` (lines 233-250): finds strictly by
string id only (no `parseInt` fallback, unlike the variant-1 get). -/
def deleteV1 (users : List User) (param : String) : Response × List User :=
  match users.findIdx? (fun u => strictEqId u.id param) with
  | none => (⟨404, .errMsg "User not found"⟩, users)
  | some i => (⟨204, .empty⟩, users.eraseIdx i)

/-- Variant-2 `DELETE /users/:id` (lines 560-573): finds loosely, like
the variant-2 get. -/
def deleteV2 (users : List User) (param : String) : Response × List User :=
  match users.findIdx? (fun u => looseEqId u.id param) with
  | none => (⟨404, .errMsg "User not found"⟩, users)
  | some i => (⟨204, .empty⟩, users.eraseIdx i)

/-- Variant-3 `DELETE /users/:id` (lines 725-741): finds by `parseInt`,
like the variant-3 get. -/
def deleteV3 (users : List User) (param : String) : Response × List User :=
  match users.findIdx? (fun u => strictEqIdNum u.id param) with
  | none => (⟨404, .errMsg "User not found"⟩, users)
  | some i => (⟨204, .empty⟩, users.eraseIdx i)

/-- State of the backing JSON file as `readUsers` sees it: absent,
readable with a given text content, or failing with an I/O error whose
code is not `ENOENT`. -/
inductive FileState where
  | absent
  | ioError
  | content (s : String)
deriving DecidableEq

/-- Outcome of `readUsers`: a collection, or a rethrown error. -/
inductive ReadResult where
  | ok (users : List User)
  | thrown
deriving DecidableEq

/-- `data.replace(/^﻿/, "")`: strip one leading byte-order-mark. -/
def stripBOM (s : String) : String :=
  match s.data with
  | c :: rest => if c = Char.ofNat 0xFEFF then String.mk rest else s
  | [] => s

/-- `readUsers` (lines 12-32; identical in all three variants),
parameterised by the `JSON.parse` function (`none` embeds a thrown
`SyntaxError`).  Returns the outcome and the resulting file state;
`JSON.stringify([], null, 2)` is the two-character text `[]`. -/
def readUsersModel (parse : String → Option (List User)) (fs : FileState) :
    ReadResult × FileState :=
  match fs with
  | .ioError => (.thrown, .ioError)
  | .absent => (.ok [], .content "[]")
  | .content s =>
    let d := stripBOM s
    if strEmpty (trimStr d) then (.ok [], .content s)
    else
      match parse d with
      | some users => (.ok users, .content s)
      | none => (.ok [], .content "[]")

/-! ## Sample data shared by the concrete checks -/

/-- A stored record with all claim-relevant fields present. -/
def annUser : User :=
  { id := .str "1"
    name := some "Ann"
    username := some "ann1"
    email := some "ann@x.com"
    address := some ⟨some "S", some "C", some "Z", none⟩
    phone := some "123"
    website := some "w"
    company := none
    createdAt := some "t0"
    updatedAt := some "t0" }

/-- An update body supplying only `name`. -/
def nameOnlyBody : Body := { emptyBody with name := some "Ann2" }

/-! ## Generic list lemmas used by several claims -/

theorem map_set_of_same (f : User → α) (users : List User) (i : Nat)
    (old nu : User) (h : users[i]? = some old) (hf : f nu = f old) :
    (users.set i nu).map f = users.map f := by
  induction users generalizing i with
  | nil => simp at h
  | cons hd tl ih =>
    cases i with
    | zero =>
      simp only [List.getElem?_cons_zero, Option.some.injEq] at h
      simp [List.set, h, hf]
    | succ j =>
      simp only [List.getElem?_cons_succ] at h
      simp [List.set, ih j h]

theorem find?_eq_none_of_countP_zero (p : User → Bool) (l : List User)
    (h : l.countP p = 0) : l.find? p = none := by
  induction l with
  | nil => rfl
  | cons hd tl ih =>
    rw [List.countP_cons] at h
    cases hp : p hd with
    | true => simp [hp] at h
    | false =>
      simp only [hp, if_false, Nat.add_zero] at h
      simp [List.find?_cons, hp, ih h]

theorem findIdx?_eq_none_of_countP_zero (p : User → Bool) (l : List User)
    (h : l.countP p = 0) : l.findIdx? p = none := by
  induction l with
  | nil => rfl
  | cons hd tl ih =>
    rw [List.countP_cons] at h
    cases hp : p hd with
    | true => simp [hp] at h
    | false =>
      simp only [hp, if_false, Nat.add_zero] at h
      simp [List.findIdx?_cons, hp, ih h]

theorem erase_first_match (p : User → Bool) (l : List User)
    (h : l.countP p = 1) :
    ∃ i, l.findIdx? p = some i ∧ (l.eraseIdx i).countP p = 0 := by
  induction l with
  | nil => simp [List.countP_nil] at h
  | cons hd tl ih =>
    rw [List.countP_cons] at h
    cases hp : p hd with
    | true =>
      simp only [hp, if_true] at h
      have htl : tl.countP p = 0 := by omega
      exact ⟨0, by simp [List.findIdx?_cons, hp], by simpa using htl⟩
    | false =>
      simp only [hp, if_false, Nat.add_zero] at h
      obtain ⟨i, hfind, herase⟩ := ih h
      refine ⟨i + 1, by simp [List.findIdx?_cons, hp, hfind], ?_⟩
      simpa [List.countP_cons, hp] using herase

/-! ## C1: merge semantics of PUT for fields absent from the body -/

/-- The record a variant-1 name-only update produces: everything kept
except the new `name` and the refreshed `updatedAt`. -/
def renameOnly (old : User) (nm nowIso : String) : User :=
  { old with name := some (escapeStr (trimStr nm)), updatedAt := some nowIso }

/-- The record the variant-2 update handler produces for a name-only
body on `annUser`: `username` and `email` are gone. -/
def annClobbered : User :=
  { id := .str "1"
    name := some "Ann2"
    username := none
    email := none
    address := some ⟨some "S", some "C", some "Z", none⟩
    phone := some "123"
    website := some "w"
    company := some emptyCompany
    createdAt := none
    updatedAt := none }

/-- C1, amended part: in variant 1 an update whose body supplies only
`name` keeps every other top-level field of the stored record (in
particular `username` and `email`), in the 200 response and in the
stored collection alike; only `name` and the server-managed `updatedAt`
change. -/
theorem c1_put_name_only_merges_v1 (users : List User) (param nowIso : String)
    (b : Body) (i : Nat) (old : User) (nm : String)
    (hfind : users.findIdx? (fun u => strictEqId u.id param) = some i)
    (hget : users[i]? = some old)
    (hv : updateErrorsV1 b = [])
    (hname : b.name = some nm) (hid : b.id = none) (husr : b.username = none)
    (hem : b.email = none) (haddr : b.address = none) (hph : b.phone = none)
    (hws : b.website = none) (hco : b.company = none) :
    putV1 users param b nowIso =
      (⟨200, .user (renameOnly old nm nowIso)⟩,
       users.set i (renameOnly old nm nowIso)) := by
  simp only [putV1, hv, List.isEmpty_nil, Bool.not_true, Bool.false_eq_true,
    if_false, sanitizeV1, hname, hid, husr, hem, haddr, hph, hws, hco,
    Option.map_none, Option.map_some, hfind, hget, jsTruthy, Bool.or_self,
    Bool.false_or, if_neg]
  simp [keyOr, jsTruthy, renameOnly]

/-- C1, counterexample: in variant 2 the same name-only update drops the
stored `username` and `email` (they are overwritten with the absent body
values), in the 200 response and in the stored record. -/
theorem c1_counterexample :
    (putV2 [annUser] "1" nameOnlyBody).1 = ⟨200, .user annClobbered⟩ ∧
    annUser.username = some "ann1" ∧ annUser.email = some "ann@x.com" ∧
    annClobbered.username = none ∧ annClobbered.email = none ∧
    (putV2 [annUser] "1" nameOnlyBody).2 = [annClobbered] := by
  refine ⟨by decide, by decide, by decide, by decide, by decide, by decide⟩

/-- C1 witness: the amended variant-1 statement applied to a concrete
record and the body supplying only `name := "Ann2"`. -/
theorem c1_witness :
    putV1 [annUser] "1" nameOnlyBody "t1" =
      (⟨200, .user (renameOnly annUser "Ann2" "t1")⟩,
       [annUser].set 0 (renameOnly annUser "Ann2" "t1")) :=
  c1_put_name_only_merges_v1 [annUser] "1" "t1" nameOnlyBody 0 annUser "Ann2"
    (by decide) (by decide) (by decide) rfl rfl rfl rfl rfl rfl rfl rfl

/-! ## C2: immutability of the stored id under updates -/

/-- An update body supplying only an `id` key. -/
def idOnlyBody : Body := { emptyBody with id := some (.str "999") }

/-- What the variant-1 update handler stores for `idOnlyBody` on
`annUser`: the body id has overridden the stored id. -/
def annRenumbered : User :=
  { annUser with id := .str "999", updatedAt := some "t1" }

/-- C2, amended part: in variants 2 and 3 the update handlers preserve
the stored id — the list of stored ids is unchanged by any update call,
and a 200 response carries the id of the record that was found, with the
collection updated in place. -/
theorem c2_update_preserves_id_v2_v3 :
    (∀ users param b, ((putV2 users param b).2.map User.id) = users.map User.id) ∧
    (∀ users param b, ((putV3 users param b).2.map User.id) = users.map User.id) ∧
    (∀ users param b i old nu r,
      users.findIdx? (fun u => looseEqId u.id param) = some i →
      users[i]? = some old →
      putV2 users param b = (⟨200, .user nu⟩, r) →
      nu.id = old.id ∧ r = users.set i nu) ∧
    (∀ users param b i old nu r,
      users.findIdx? (fun u => strictEqIdNum u.id param) = some i →
      users[i]? = some old →
      putV3 users param b = (⟨200, .user nu⟩, r) →
      nu.id = old.id ∧ r = users.set i nu) := by
  refine ⟨?_, ?_, ?_, ?_⟩
  · intro users param b
    simp only [putV2]
    split
    · rfl
    · split
      · rfl
      · next i hidx =>
        split
        · rfl
        · next old hold =>
          split
          · rfl
          · exact map_set_of_same User.id users i old _ hold rfl
  · intro users param b
    simp only [putV3]
    split
    · rfl
    · split
      · rfl
      · next i hidx =>
        split
        · rfl
        · next old hold =>
          exact map_set_of_same User.id users i old _ hold rfl
  · intro users param b i old nu r hidx hold h
    simp only [putV2, hidx, hold] at h
    split at h
    · simp [Prod.ext_iff, Response.mk.injEq] at h
    · split at h
      · simp [Prod.ext_iff, Response.mk.injEq] at h
      · obtain ⟨h1, h2⟩ := Prod.mk.injEq .. ▸ h
        cases h1
        exact ⟨rfl, h2.symm⟩
  · intro users param b i old nu r hidx hold h
    simp only [putV3, hidx, hold] at h
    split at h
    · simp [Prod.ext_iff, Response.mk.injEq] at h
    · obtain ⟨h1, h2⟩ := Prod.mk.injEq .. ▸ h
      cases h1
      exact ⟨rfl, h2.symm⟩

/-- C2, counterexample: in variant 1 an update body carrying
`id := "999"` overrides the stored id `"1"`, in the 200 response and in
the stored collection. -/
theorem c2_counterexample :
    (putV1 [annUser] "1" idOnlyBody "t1").1 = ⟨200, .user annRenumbered⟩ ∧
    annUser.id = .str "1" ∧ annRenumbered.id = .str "999" ∧
    (putV1 [annUser] "1" idOnlyBody "t1").2 = [annRenumbered] := by
  refine ⟨by decide, by decide, by decide, by decide⟩

/-- C2 witness: the amended statement applied to a concrete variant-2
update that changes `name` on a stored record with id `"1"`. -/
theorem c2_witness :
    ((putV2 [annUser] "1" nameOnlyBody).2.map User.id) = [annUser].map User.id :=
  c2_update_preserves_id_v2_v3.1 [annUser] "1" nameOnlyBody

/-! ## C5: key-by-key address merge on update -/

/-- An update body supplying only `address.city`. -/
def cityOnlyBody : Body :=
  { emptyBody with address := some ⟨none, some "NewC", none, none⟩ }

/-- What the variant-1 update handler stores for `cityOnlyBody` on
`annUser`: the whole address is replaced, so `street` and `zipcode` are
gone. -/
def annAddrReplaced : User :=
  { annUser with
    address := some ⟨none, some "NewC", none, none⟩
    updatedAt := some "t1" }

/-- C5, amended part: in variant 2 an update supplying only
`address.city` merges the address key-by-key — the 200 response and the
stored record keep the previous `street`, `zipcode` and `geo` and take
the new (trimmed) `city`; in variant 3 a partial body without `name` is
rejected outright with 400, leaving the collection unchanged. -/
theorem c5_address_merge_v2 :
    (∀ users param b i old oa nu r c,
      users.findIdx? (fun u => looseEqId u.id param) = some i →
      users[i]? = some old →
      b.address = some ⟨none, some c, none, none⟩ →
      old.address = some oa →
      putV2 users param b = (⟨200, .user nu⟩, r) →
      nu.address = some ⟨oa.street, some (trimStr c), oa.zipcode, oa.geo⟩ ∧
      r = users.set i nu) ∧
    (∀ users param b, b.name = none →
      (putV3 users param b).1.status = 400 ∧ (putV3 users param b).2 = users) := by
  constructor
  · intro users param b i old oa nu r c hidx hold haddr holda h
    simp only [putV2, hidx, hold] at h
    split at h
    · simp [Prod.ext_iff, Response.mk.injEq] at h
    · split at h
      · simp [Prod.ext_iff, Response.mk.injEq] at h
      · obtain ⟨h1, h2⟩ := Prod.mk.injEq .. ▸ h
        cases h1
        refine ⟨?_, h2.symm⟩
        simp [sanitizeV2, haddr, holda, mergeAddr, sanitizeAddr, keyOr]
  · intro users param b hname
    have h1 : strEmpty (chainVal b.name) = true := by rw [hname]; decide
    have h2 : errorsV3 b =
        ⟨"name", "Name is required"⟩ ::
          ((if strEmpty (chainVal b.username) then
              [⟨"username", "Username is required"⟩] else []) ++
           (if !(isEmailM (b.email.getD "")) then
              [⟨"email", "Valid email is required"⟩] else [])) := by
      simp [errorsV3, h1]
    constructor
    · simp [putV3, h2]
    · simp [putV3, h2]

/-- C5, counterexample: in variant 1 the same city-only update replaces
the address wholesale — `street` and `zipcode` are lost from the 200
response and the stored record. -/
theorem c5_counterexample :
    (putV1 [annUser] "1" cityOnlyBody "t1").1 = ⟨200, .user annAddrReplaced⟩ ∧
    (annUser.address.map Address.street) = some (some "S") ∧
    (annAddrReplaced.address.map Address.street) = some none ∧
    (putV1 [annUser] "1" cityOnlyBody "t1").2 = [annAddrReplaced] := by
  refine ⟨by decide, by decide, by decide, by decide⟩

/-- The record the variant-2 update handler stores for `cityOnlyBody`
on `annUser`: the address is merged key-by-key (street and zipcode
kept), while the fields the variant-2 handler rebuilds from the body
are dropped. -/
def annCityMerged : User :=
  { id := .str "1"
    name := none
    username := none
    email := none
    address := some ⟨some "S", some "NewC", some "Z", none⟩
    phone := some "123"
    website := some "w"
    company := some emptyCompany
    createdAt := none
    updatedAt := none }

/-- C5 witness: the amended variant-2 statement applied to `annUser` and
the city-only body. -/
theorem c5_witness :
    annCityMerged.address = some ⟨some "S", some (trimStr "NewC"), some "Z", none⟩ ∧
    [annCityMerged] = [annUser].set 0 annCityMerged :=
  c5_address_merge_v2.1 [annUser] "1" cityOnlyBody 0 annUser
    ⟨some "S", some "C", some "Z", none⟩ annCityMerged [annCityMerged] "NewC"
    (by decide) (by decide) rfl rfl (by decide)

/-! ## C9: delete semantics (variant 2, the cited variant) -/

/-- `find?` succeeding yields a `findIdx?` index. -/
theorem findIdx?_some_of_find?_some (p : User → Bool) (l : List User)
    (u : User) (h : l.find? p = some u) : ∃ i, l.findIdx? p = some i := by
  induction l with
  | nil => simp at h
  | cons hd tl ih =>
    cases hp : p hd with
    | true => exact ⟨0, by simp [List.findIdx?_cons, hp]⟩
    | false =>
      rw [List.find?_cons, hp] at h
      obtain ⟨i, hi⟩ := ih h
      exact ⟨i + 1, by simp [List.findIdx?_cons, hp, hi]⟩

/-- C9: in variant 2, when exactly one stored record matches the id (the
spec invariant that ids identify exactly one record), DELETE answers 204
with an empty body and removes it; a subsequent GET for the same id
answers 404, a second DELETE answers 404 and leaves the collection
unchanged; and a DELETE for an id with no matching record answers 404
and never modifies the collection. -/
theorem c9_delete_get_delete_v2 (users : List User) (param : String) :
    (users.countP (fun u => looseEqId u.id param) = 1 →
      (deleteV2 users param).1 = ⟨204, .empty⟩ ∧
      getByIdV2 (deleteV2 users param).2 param = ⟨404, .errMsg "User not found"⟩ ∧
      deleteV2 (deleteV2 users param).2 param =
        (⟨404, .errMsg "User not found"⟩, (deleteV2 users param).2)) ∧
    (users.countP (fun u => looseEqId u.id param) = 0 →
      deleteV2 users param = (⟨404, .errMsg "User not found"⟩, users)) := by
  constructor
  · intro h
    obtain ⟨i, hfind, herase⟩ := erase_first_match _ _ h
    have hdel : deleteV2 users param = (⟨204, .empty⟩, users.eraseIdx i) := by
      simp [deleteV2, hfind]
    refine ⟨by rw [hdel], ?_, ?_⟩
    · rw [hdel]
      simp [getByIdV2, find?_eq_none_of_countP_zero _ _ herase]
    · rw [hdel]
      simp [deleteV2, findIdx?_eq_none_of_countP_zero _ _ herase]
  · intro h
    simp [deleteV2, findIdx?_eq_none_of_countP_zero _ _ h]

/-- C9 witness: the statement applied to a singleton collection holding
`annUser` and the id `"1"`, and to the id `"2"` matching nothing. -/
theorem c9_witness :
    ((deleteV2 [annUser] "1").1 = ⟨204, .empty⟩ ∧
      getByIdV2 (deleteV2 [annUser] "1").2 "1" = ⟨404, .errMsg "User not found"⟩ ∧
      deleteV2 (deleteV2 [annUser] "1").2 "1" =
        (⟨404, .errMsg "User not found"⟩, (deleteV2 [annUser] "1").2)) ∧
    deleteV2 [annUser] "2" = (⟨404, .errMsg "User not found"⟩, [annUser]) :=
  ⟨(c9_delete_get_delete_v2 [annUser] "1").1 (by decide),
   (c9_delete_get_delete_v2 [annUser] "2").2 (by decide)⟩

/-! ## C10: GET and DELETE use the same matching rule -/

/-- A stored record whose id is the number `5` (as variant 3 creates
them). -/
def numUser5 : User :=
  { annUser with id := .num 5 }

/-- C10, amended part: in variants 2 and 3 the get and delete handlers
use the same matching rule, so whenever GET returns a record, DELETE for
the same parameter answers 204, not 404. -/
theorem c10_get_delete_agree_v2_v3 :
    (∀ users param u, getByIdV2 users param = ⟨200, .user u⟩ →
      (deleteV2 users param).1 = ⟨204, .empty⟩) ∧
    (∀ users param u, getByIdV3 users param = ⟨200, .user u⟩ →
      (deleteV3 users param).1 = ⟨204, .empty⟩) := by
  constructor
  · intro users param u h
    simp only [getByIdV2] at h
    split at h
    · next v hv =>
      obtain ⟨i, hi⟩ := findIdx?_some_of_find?_some _ _ v hv
      simp [deleteV2, hi]
    · simp [Response.mk.injEq] at h
  · intro users param u h
    simp only [getByIdV3] at h
    split at h
    · next v hv =>
      obtain ⟨i, hi⟩ := findIdx?_some_of_find?_some _ _ v hv
      simp [deleteV3, hi]
    · simp [Response.mk.injEq] at h

/-- C10, counterexample: in variant 1, for a stored record with the
numeric id `5` and the parameter `"5"`, GET matches it (through the
`parseInt` fallback) but DELETE, which matches strictly against the
string parameter only, answers 404 and leaves the collection
unchanged. -/
theorem c10_counterexample :
    getByIdV1 [numUser5] "5" = ⟨200, .user numUser5⟩ ∧
    deleteV1 [numUser5] "5" = (⟨404, .errMsg "User not found"⟩, [numUser5]) := by
  refine ⟨by decide, by decide⟩

/-- C10 witness: the amended statement applied to the singleton
collection holding `annUser` and the parameter `"1"`. -/
theorem c10_witness : (deleteV2 [annUser] "1").1 = ⟨204, .empty⟩ :=
  c10_get_delete_agree_v2_v3.1 [annUser] "1" annUser (by decide)

/-! ## C3: duplicate `username` or `email` on create -/

/-- Appending a matching element to a match-free list makes `find?`
return it. -/
theorem find?_append_singleton (p : User → Bool) (l : List User) (u : User)
    (h : l.find? p = none) (hu : p u = true) : (l ++ [u]).find? p = some u := by
  induction l with
  | nil => simp [List.find?_cons, hu]
  | cons hd tl ih =>
    rw [List.find?_cons] at h
    cases hp : p hd with
    | true => rw [hp] at h; simp at h
    | false =>
      rw [hp] at h
      simp only [List.cons_append, List.find?_cons, hp]
      exact ih h

/-- A create body for a first record. -/
def createBodyA : Body :=
  { emptyBody with name := some "Ann", username := some "ann1",
                   email := some "ann@x.com" }

/-- A create body reusing the username of `createBodyA` with a fresh
email. -/
def createBodyDup : Body :=
  { emptyBody with name := some "Bob", username := some "ann1",
                   email := some "bob@x.com" }

/-- C3, amended part: in variants 1 and 2, when the first create is
valid and hits no stored duplicate, it answers 201; a second create
reusing its `username` then fails — with 400 and a fixed message naming
both candidate fields in variant 1, and with 409 and a message naming
the conflicting field (`username`) in variant 2 — and in both variants
the failed second create adds no record. -/
theorem c3_duplicate_create_conflict (users : List User) (b1 b2 : Body)
    (t1 t2 : Nat) (nowA nowB : String) :
    (createErrorsV1 b1 = [] → createErrorsV1 b2 = [] →
     users.find? (fun u => u.username == (sanitizeV1 b1).username ||
       u.email == (sanitizeV1 b1).email) = none →
     (sanitizeV1 b2).username = (sanitizeV1 b1).username →
     (postV1 users b1 t1 nowA).1.status = 201 ∧
     (postV1 (postV1 users b1 t1 nowA).2 b2 t2 nowB).1 =
       ⟨400, .errMsg "User with this username or email already exists"⟩ ∧
     (postV1 (postV1 users b1 t1 nowA).2 b2 t2 nowB).2 =
       (postV1 users b1 t1 nowA).2) ∧
    (createErrorsV2 b1 = [] → createErrorsV2 b2 = [] →
     users.find? (fun u => u.username == (sanitizeV2 b1).username ||
       u.email == (sanitizeV2 b1).email) = none →
     users.find? (fun u => u.username == (sanitizeV2 b2).username ||
       u.email == (sanitizeV2 b2).email) = none →
     (sanitizeV2 b2).username = (sanitizeV2 b1).username →
     (postV2 users b1 t1).1.status = 201 ∧
     (postV2 (postV2 users b1 t1).2 b2 t2).1 =
       ⟨409, .errMsg "User with this username already exists"⟩ ∧
     (postV2 (postV2 users b1 t1).2 b2 t2).2 = (postV2 users b1 t1).2) := by
  constructor
  · intro hv1 hv2 hfresh hsame
    have hpost1 : postV1 users b1 t1 nowA =
        (⟨201, .user (createdV1 b1 t1 nowA)⟩, users ++ [createdV1 b1 t1 nowA]) := by
      simp [postV1, hv1, hfresh]
    have hp2u1 : ((createdV1 b1 t1 nowA).username == (sanitizeV1 b2).username ||
        (createdV1 b1 t1 nowA).email == (sanitizeV1 b2).email) = true := by
      simp [createdV1, hsame]
    refine ⟨by rw [hpost1], ?_, ?_⟩ <;>
    · rw [hpost1]
      cases hc : (users ++ [createdV1 b1 t1 nowA]).find?
          (fun u => u.username == (sanitizeV1 b2).username ||
            u.email == (sanitizeV1 b2).email) with
      | none =>
        exfalso
        have := List.find?_eq_none.mp hc (createdV1 b1 t1 nowA) (by simp)
        rw [hp2u1] at this
        exact this rfl
      | some ex => simp [postV1, hv2, hc]
  · intro hv1 hv2 hfresh1 hfresh2 hsame
    have hpost1 : postV2 users b1 t1 =
        (⟨201, .user (createdV2 b1 t1)⟩, users ++ [createdV2 b1 t1]) := by
      simp [postV2, hv1, hfresh1]
    have hp2u1 : (fun u => u.username == (sanitizeV2 b2).username ||
        u.email == (sanitizeV2 b2).email) (createdV2 b1 t1) = true := by
      simp [createdV2, hsame]
    have hc : (users ++ [createdV2 b1 t1]).find?
        (fun u => u.username == (sanitizeV2 b2).username ||
          u.email == (sanitizeV2 b2).email) = some (createdV2 b1 t1) :=
      find?_append_singleton _ users _ hfresh2 hp2u1
    have hfld : ((createdV2 b1 t1).username == (sanitizeV2 b2).username) = true := by
      simp [createdV2, hsame]
    refine ⟨by rw [hpost1], ?_, ?_⟩ <;>
    · rw [hpost1]
      simp [postV2, hv2, hc, hfld]

/-- C3, counterexample: variant 3 performs no uniqueness check at all —
a second create reusing the stored username `"ann1"` answers 201 and
appends a second record carrying the same username. -/
theorem c3_counterexample :
    (postV3 (postV3 [] createBodyA).2 createBodyDup).1.status = 201 ∧
    ((postV3 (postV3 [] createBodyA).2 createBodyDup).2.map
      (fun u => u.username)) = [some "ann1", some "ann1"] := by
  refine ⟨by decide, by decide⟩

/-- C3 witness: the amended statement applied to two concrete creates
sharing a username, from the empty collection, in both variants. -/
theorem c3_witness :
    ((postV1 [] createBodyA 5 "ta").1.status = 201 ∧
     (postV1 (postV1 [] createBodyA 5 "ta").2 createBodyDup 6 "tb").1 =
       ⟨400, .errMsg "User with this username or email already exists"⟩ ∧
     (postV1 (postV1 [] createBodyA 5 "ta").2 createBodyDup 6 "tb").2 =
       (postV1 [] createBodyA 5 "ta").2) ∧
    ((postV2 [] createBodyA 5).1.status = 201 ∧
     (postV2 (postV2 [] createBodyA 5).2 createBodyDup 6).1 =
       ⟨409, .errMsg "User with this username already exists"⟩ ∧
     (postV2 (postV2 [] createBodyA 5).2 createBodyDup 6).2 =
       (postV2 [] createBodyA 5).2) :=
  ⟨(c3_duplicate_create_conflict [] createBodyA createBodyDup 5 6 "ta" "tb").1
      (by decide) (by decide) (by decide) (by decide),
   (c3_duplicate_create_conflict [] createBodyA createBodyDup 5 6 "ta" "tb").2
      (by decide) (by decide) (by decide) (by decide) (by decide)⟩

/-! ## C6: search semantics -/

/-- The declarative form of the variant-2 record match: `q`
case-insensitively a substring of `name`, `username` or `email`, or the
address subfield match (with the zipcode caveat). -/
def recordMatchV2 (q : String) (u : User) : Bool :=
  strContains (lowerStr (u.name.getD "")) (lowerStr q) ||
  strContains (lowerStr (u.username.getD "")) (lowerStr q) ||
  strContains (lowerStr (u.email.getD "")) (lowerStr q) ||
  addrMatch (lowerStr q) u.address

/-- The declarative form of the variant-1 record match: `name` only. -/
def recordMatchV1 (q : String) (u : User) : Bool :=
  strContains (lowerStr (u.name.getD "")) (lowerStr q)

/-- On a record whose `name`, `username` and `email` are present, the
variant-2 search predicate does not throw and agrees with the
declarative match. -/
theorem searchPredV2_eq_ok (term : String) (u : User)
    (hn : u.name.isSome) (hu : u.username.isSome) (he : u.email.isSome) :
    searchPredV2 term u = .ok
      (strContains (lowerStr (u.name.getD "")) term ||
       strContains (lowerStr (u.username.getD "")) term ||
       strContains (lowerStr (u.email.getD "")) term ||
       addrMatch term u.address) := by
  obtain ⟨n, hn⟩ := Option.isSome_iff_exists.mp hn
  obtain ⟨un, hu⟩ := Option.isSome_iff_exists.mp hu
  obtain ⟨em, he⟩ := Option.isSome_iff_exists.mp he
  rw [hn, hu, he]
  simp only [searchPredV2, fieldStr, hn, hu, he, Option.getD_some, bind, pure,
    Except.bind]
  cases c1 : strContains (lowerStr n) term <;>
    cases c2 : strContains (lowerStr un) term <;>
    cases c3 : strContains (lowerStr em) term <;>
    simp [Except.pure]

/-- On a record whose `name` is present, the variant-1 search predicate
does not throw and agrees with the declarative match. -/
theorem searchPredV1_eq_ok (term : String) (u : User) (hn : u.name.isSome) :
    searchPredV1 term u = .ok (strContains (lowerStr (u.name.getD "")) term) := by
  obtain ⟨n, hn⟩ := Option.isSome_iff_exists.mp hn
  rw [hn]
  simp [searchPredV1, fieldStr, hn, bind, pure, Except.bind, Except.pure]

/-- When the predicate never throws, the throwing filter is the plain
filter. -/
theorem filterE_eq_filter (p : User → Except Unit Bool) (g : User → Bool)
    (l : List User) (h : ∀ u ∈ l, p u = .ok (g u)) :
    filterE p l = .ok (l.filter g) := by
  induction l with
  | nil => rfl
  | cons hd tl ih =>
    have hhd := h hd (by simp)
    have htl := ih (fun u hu => h u (by simp [hu]))
    rw [List.filter_cons]
    cases hg : g hd with
    | true => simp only [filterE, hhd, hg, htl, if_true]
    | false => simp [filterE, hhd, hg, htl]

/-- C6, amended: for a non-empty query and a collection whose records
all carry `name`, `username` and `email`, the variant-2 search answers
200 with exactly the records matching the declarative variant-2 rule
(case-insensitive substring of `name`, `username`, `email`, `street` or
`city`; `zipcode` matched without lowercasing), while the variant-1
search filters on `name` only; when nothing matches, the answer is 200
with the empty array, not an error. -/
theorem c6_search_filters (users : List User) (q : String)
    (hq : strEmpty q = false)
    (hdef : ∀ u ∈ users, u.name.isSome ∧ u.username.isSome ∧ u.email.isSome) :
    searchV2 users (some q) = ⟨200, .users (users.filter (recordMatchV2 q))⟩ ∧
    searchV1 users (some q) = ⟨200, .users (users.filter (recordMatchV1 q))⟩ ∧
    ((∀ u ∈ users, recordMatchV2 q u = false) →
      searchV2 users (some q) = ⟨200, .users []⟩) := by
  have h2 : filterE (searchPredV2 (lowerStr q)) users =
      .ok (users.filter (recordMatchV2 q)) := by
    refine filterE_eq_filter _ _ _ (fun u hu => ?_)
    obtain ⟨hn, hus, he⟩ := hdef u hu
    rw [searchPredV2_eq_ok (lowerStr q) u hn hus he]
    rfl
  have h1 : filterE (searchPredV1 (lowerStr q)) users =
      .ok (users.filter (recordMatchV1 q)) := by
    refine filterE_eq_filter _ _ _ (fun u hu => ?_)
    rw [searchPredV1_eq_ok (lowerStr q) u (hdef u hu).1]
    rfl
  refine ⟨?_, ?_, ?_⟩
  · simp [searchV2, jsTruthy, hq, h2]
  · simp [searchV1, jsTruthy, hq, h1]
  · intro hnone
    have : users.filter (recordMatchV2 q) = [] :=
      List.filter_eq_nil_iff.mpr (by simpa using hnone)
    simp [searchV2, jsTruthy, hq, h2, this]

/-- C6, counterexample: in variant 1 a query that is a substring of a
stored record's `email` (but not of its `name`) returns the empty
array, although the claim requires that record to be returned. -/
theorem c6_counterexample :
    searchV1 [annUser] (some "x.com") = ⟨200, .users []⟩ ∧
    annUser.email = some "ann@x.com" ∧
    strContains (lowerStr "ann@x.com") (lowerStr "x.com") = true := by
  refine ⟨by decide, by decide, by decide⟩

/-- C6 witness: the amended statement applied to the singleton
collection holding `annUser` and the query `"x.com"`. -/
theorem c6_witness :
    searchV2 [annUser] (some "x.com") =
      ⟨200, .users ([annUser].filter (recordMatchV2 "x.com"))⟩ ∧
    searchV1 [annUser] (some "x.com") =
      ⟨200, .users ([annUser].filter (recordMatchV1 "x.com"))⟩ :=
  ⟨(c6_search_filters [annUser] "x.com" (by decide) (by decide)).1,
   (c6_search_filters [annUser] "x.com" (by decide) (by decide)).2.1⟩

/-! ## C7: create validation rules -/

/-- The create rules exactly as the claim states them (and as the
variant-1 chains implement them): `name` non-empty, `username` 3 to 30
characters over `[a-zA-Z0-9_.-]`, `email` well-formed — all on the
trimmed values the chains validate. -/
def claimValidV1 (b : Body) : Bool :=
  !(strEmpty (chainVal b.name)) &&
  (decide (3 ≤ (chainVal b.username).length) &&
   decide ((chainVal b.username).length ≤ 30) &&
   (chainVal b.username).data.all usernameCharV1) &&
  isEmailM (chainVal b.email)

theorem name_err_mem (b : Body) (h : strEmpty (chainVal b.name) = true) :
    "name" ∈ (createErrorsV1 b).map FieldError.field := by
  simp [createErrorsV1, h]

theorem username_err_mem (b : Body)
    (h : (chainVal b.username).length < 3 ∨ 30 < (chainVal b.username).length ∨
      (chainVal b.username).data.all usernameCharV1 = false) :
    "username" ∈ (createErrorsV1 b).map FieldError.field := by
  rcases h with h | h | h
  · have hc : ((chainVal b.username).length < 3 ||
        (chainVal b.username).length > 30) = true := by simp [h]
    simp only [createErrorsV1, List.map_append, List.mem_append, hc, if_true]
    simp
  · have hc : ((chainVal b.username).length < 3 ||
        (chainVal b.username).length > 30) = true := by simp [h]
    simp only [createErrorsV1, List.map_append, List.mem_append, hc, if_true]
    simp
  · have hc : (!((chainVal b.username).data.all usernameCharV1) ||
        strEmpty (chainVal b.username)) = true := by simp [h]
    simp only [createErrorsV1, List.map_append, List.mem_append, hc, if_true]
    simp

theorem email_err_mem (b : Body) (h : isEmailM (chainVal b.email) = false) :
    "email" ∈ (createErrorsV1 b).map FieldError.field := by
  have hc : (!(isEmailM (chainVal b.email))) = true := by simp [h]
  simp only [createErrorsV1, List.map_append, List.mem_append, hc, if_true]
  simp

/-- C7, amended: the variant-1 create chains enforce exactly the rules
the claim names — a request failing any of them answers 400 carrying the
full error list, each violated field appears in that list (not just the
first), and a request that passes validation satisfies all the claimed
rules.  (Variants 2 and 3 enforce weaker rules; see the
counterexample.) -/
theorem c7_validation_v1 (users : List User) (b : Body) (t : Nat)
    (now : String) :
    (createErrorsV1 b ≠ [] →
      postV1 users b t now = (⟨400, .errList (createErrorsV1 b)⟩, users)) ∧
    (strEmpty (chainVal b.name) = true →
      "name" ∈ (createErrorsV1 b).map FieldError.field) ∧
    ((chainVal b.username).length < 3 ∨ 30 < (chainVal b.username).length ∨
        (chainVal b.username).data.all usernameCharV1 = false →
      "username" ∈ (createErrorsV1 b).map FieldError.field) ∧
    (isEmailM (chainVal b.email) = false →
      "email" ∈ (createErrorsV1 b).map FieldError.field) ∧
    (createErrorsV1 b = [] → claimValidV1 b = true) := by
  refine ⟨?_, name_err_mem b, username_err_mem b, email_err_mem b, ?_⟩
  · intro h
    cases herrs : createErrorsV1 b with
    | nil => exact absurd herrs h
    | cons a l => simp [postV1, herrs]
  · intro h
    have hmap : (createErrorsV1 b).map FieldError.field = [] := by rw [h]; rfl
    have hname : ¬ strEmpty (chainVal b.name) = true := fun hx =>
      by simpa [hmap] using name_err_mem b hx
    have hemail : ¬ isEmailM (chainVal b.email) = false := fun hx =>
      by simpa [hmap] using email_err_mem b hx
    have husr : ¬ ((chainVal b.username).length < 3 ∨
        30 < (chainVal b.username).length ∨
        (chainVal b.username).data.all usernameCharV1 = false) := fun hx =>
      by simpa [hmap] using username_err_mem b hx
    push_neg at husr
    obtain ⟨h1, h2, h3⟩ := husr
    have hn2 : strEmpty (chainVal b.name) = false := by simpa using hname
    have he2 : isEmailM (chainVal b.email) = true := by simpa using hemail
    simp [claimValidV1, hn2, he2, h1, h2, h3]

/-- A create body whose username is 31 characters long (valid email and
name). -/
def longUserBody : Body :=
  { emptyBody with name := some "A",
                   username := some (String.mk (List.replicate 31 'a')),
                   email := some "a@x.com" }

/-- C7, counterexample: variant 2 has no upper bound on the username
(its rule is only `min 3` over `[a-zA-Z0-9_]`), so a create with a
31-character username succeeds with 201, although the claim allows
success only for 3-30 characters. -/
theorem c7_counterexample :
    (postV2 [] longUserBody 5).1.status = 201 ∧
    ((sanitizeV2 longUserBody).username.getD "").length = 31 := by
  refine ⟨by decide, by decide⟩

/-- A body missing `name`, with a one-character username. -/
def shortUserBody : Body :=
  { emptyBody with username := some "x", email := some "a@x.com" }

/-- C7 witness: the amended statement applied to a body violating
`name` and `username` at once — both fields are listed — and to a body
passing validation. -/
theorem c7_witness :
    ("name" ∈ (createErrorsV1 shortUserBody).map FieldError.field) ∧
    ("username" ∈ (createErrorsV1 shortUserBody).map FieldError.field) ∧
    (claimValidV1 createBodyA = true) :=
  ⟨(c7_validation_v1 [] shortUserBody 5 "t").2.1 (by decide),
   (c7_validation_v1 [] shortUserBody 5 "t").2.2.1 (by decide),
   (c7_validation_v1 [] createBodyA 5 "t").2.2.2.2 (by decide)⟩

/-! ## C8: loading the collection from the backing file -/

/-- C8, amended: `readUsers` returns the empty collection and rewrites
the backing file to `[]` when the file is absent, or when its (BOM-
stripped) content is non-blank but unparseable; when the content is
empty or whitespace-only it returns the empty collection WITHOUT
touching the file; a parseable content is returned as is; and a read
error other than "file absent" is rethrown. -/
theorem c8_read_users (parse : String → Option (List User)) (s : String) :
    readUsersModel parse .absent = (.ok [], .content "[]") ∧
    (strEmpty (trimStr (stripBOM s)) = true →
      readUsersModel parse (.content s) = (.ok [], .content s)) ∧
    (strEmpty (trimStr (stripBOM s)) = false → parse (stripBOM s) = none →
      readUsersModel parse (.content s) = (.ok [], .content "[]")) ∧
    (∀ us, strEmpty (trimStr (stripBOM s)) = false →
      parse (stripBOM s) = some us →
      readUsersModel parse (.content s) = (.ok us, .content s)) ∧
    readUsersModel parse .ioError = (.thrown, .ioError) := by
  refine ⟨rfl, ?_, ?_, ?_, rfl⟩
  · intro h
    simp [readUsersModel, h]
  · intro h hp
    simp [readUsersModel, h, hp]
  · intro us h hp
    simp [readUsersModel, h, hp]

/-- C8, counterexample: on whitespace-only content the code returns the
empty collection but does not reinitialise the backing file (the claim
requires the file to be rewritten to an empty JSON array in every
unparseable case). -/
theorem c8_counterexample :
    readUsersModel (fun _ => none) (.content "   ") =
      (.ok [], .content "   ") ∧
    ("   " : String) ≠ "[]" := by
  refine ⟨by decide, by decide⟩

/-- C8 witness: the amended statement applied to an absent file, a
blank file, an unparseable file and a rethrowing read error, with
`JSON.parse` instantiated to reject everything. -/
theorem c8_witness :
    readUsersModel (fun _ => none) .absent = (.ok [], .content "[]") ∧
    readUsersModel (fun _ => none) (.content " ") = (.ok [], .content " ") ∧
    readUsersModel (fun _ => none) (.content "oops") = (.ok [], .content "[]") ∧
    readUsersModel (fun _ => none) .ioError = (.thrown, .ioError) :=
  ⟨(c8_read_users (fun _ => none) " ").1,
   (c8_read_users (fun _ => none) " ").2.1 (by decide),
   (c8_read_users (fun _ => none) "oops").2.2.1 (by decide) rfl,
   (c8_read_users (fun _ => none) "oops").2.2.2.2⟩

/-! ## C4: freshness of created ids

`Date.now().toString()` is embedded as `Nat.repr` of the millisecond
clock; the lemmas below prove `Nat.repr` injective and non-empty, by
relating the fuel-based core `Nat.toDigitsCore` to a fuel-free digit
function and decoding it back. -/

/-- Base-10 digit characters of `n`, most significant first: the
fuel-free counterpart of the core `Nat.toDigitsCore`. -/
def digitsRec (n : Nat) : List Char :=
  if h : n < 10 then [Nat.digitChar n]
  else
    have : n / 10 < n := Nat.div_lt_self (by omega) (by omega)
    digitsRec (n / 10) ++ [Nat.digitChar (n % 10)]
termination_by n

theorem digitChar_val : ∀ d < 10, (Nat.digitChar d).toNat - 48 = d := by decide

theorem toDigitsCore_eq_digitsRec (fuel : Nat) :
    ∀ n ds, n < fuel → Nat.toDigitsCore 10 fuel n ds = digitsRec n ++ ds := by
  induction fuel with
  | zero => intro n ds h; omega
  | succ f ih =>
    intro n ds h
    by_cases h10 : n < 10
    · have hdiv : n / 10 = 0 := Nat.div_eq_of_lt h10
      simp [Nat.toDigitsCore, hdiv, digitsRec, h10, Nat.mod_eq_of_lt h10]
    · have hdiv : ¬ n / 10 = 0 := by omega
      have hlt : n / 10 < f := by
        have h1 : n / 10 < n := Nat.div_lt_self (by omega) (by omega)
        omega
      rw [show Nat.toDigitsCore 10 (f + 1) n ds =
          Nat.toDigitsCore 10 f (n / 10) (Nat.digitChar (n % 10) :: ds) by
        simp [Nat.toDigitsCore, hdiv]]
      rw [ih (n / 10) (Nat.digitChar (n % 10) :: ds) hlt]
      conv_rhs => rw [digitsRec, dif_neg h10]
      simp

theorem foldl_digitsRec (n : Nat) :
    ∀ acc, (digitsRec n).foldl (fun a c => a * 10 + (c.toNat - 48)) acc =
      acc * 10 ^ (digitsRec n).length + n := by
  induction n using Nat.strong_induction_on with
  | _ n ih =>
    intro acc
    by_cases h10 : n < 10
    · rw [digitsRec, dif_pos h10]
      simp [digitChar_val n h10]
    · have hlt : n / 10 < n := Nat.div_lt_self (by omega) (by omega)
      rw [digitsRec, dif_neg h10]
      rw [List.foldl_append, ih (n / 10) hlt acc]
      have hmod : (Nat.digitChar (n % 10)).toNat - 48 = n % 10 :=
        digitChar_val (n % 10) (Nat.mod_lt _ (by omega))
      simp only [List.foldl_cons, List.foldl_nil, List.length_append,
        List.length_cons, List.length_nil, hmod]
      have hpow : 10 ^ ((digitsRec (n / 10)).length + (0 + 1)) =
          10 ^ (digitsRec (n / 10)).length * 10 := by
        rw [Nat.zero_add, Nat.pow_succ]
      rw [hpow]
      have hdm : n / 10 * 10 + n % 10 = n := by omega
      calc (acc * 10 ^ (digitsRec (n / 10)).length + n / 10) * 10 + n % 10
          = acc * (10 ^ (digitsRec (n / 10)).length * 10) +
            (n / 10 * 10 + n % 10) := by ring
        _ = acc * (10 ^ (digitsRec (n / 10)).length * 10) + n := by rw [hdm]

theorem digitsRec_inj (m n : Nat) (h : digitsRec m = digitsRec n) : m = n := by
  have hm := foldl_digitsRec m 0
  have hn := foldl_digitsRec n 0
  rw [h] at hm
  omega

theorem digitsRec_ne_nil (n : Nat) : digitsRec n ≠ [] := by
  by_cases h10 : n < 10
  · rw [digitsRec, dif_pos h10]; simp
  · rw [digitsRec, dif_neg h10]; simp

theorem natRepr_eq_digitsRec (n : Nat) : Nat.repr n = (digitsRec n).asString := by
  show (Nat.toDigits 10 n).asString = (digitsRec n).asString
  rw [Nat.toDigits, toDigitsCore_eq_digitsRec (n + 1) n [] (by omega),
    List.append_nil]

theorem natRepr_inj (m n : Nat) (h : Nat.repr m = Nat.repr n) : m = n := by
  rw [natRepr_eq_digitsRec, natRepr_eq_digitsRec] at h
  have hdata : digitsRec m = digitsRec n := congrArg String.data h
  exact digitsRec_inj m n hdata

theorem natRepr_ne_empty (n : Nat) : Nat.repr n ≠ "" := by
  intro h
  rw [natRepr_eq_digitsRec] at h
  exact digitsRec_ne_nil n (congrArg String.data h)

/-- A create body with a fresh username and email, distinct from
`createBodyA`. -/
def createBodyB : Body :=
  { emptyBody with name := some "Bob", username := some "bob1",
                   email := some "bob@x.com" }

/-- The ids of the records a sequence of variant-2 create requests
returns with 201, each request carrying its `Date.now()` clock value
and body, threading the stored collection through. -/
def createdIdsV2 : List User → List (Nat × Body) → List Id
  | _, [] => []
  | users, (t, b) :: rest =>
    (match (postV2 users b t).1 with
     | ⟨201, .user u⟩ => [u.id]
     | _ => []) ++ createdIdsV2 (postV2 users b t).2 rest

/-- A 201 response of the variant-2 create handler carries the id
`Date.now().toString()`. -/
theorem postV2_id_of_201 (users : List User) (b : Body) (t : Nat) (u : User)
    (h : (postV2 users b t).1 = ⟨201, .user u⟩) :
    u.id = .str (Nat.repr t) := by
  simp only [postV2] at h
  split at h
  · simp [Response.mk.injEq] at h
  · split at h
    · simp [Response.mk.injEq] at h
    · obtain ⟨-, h2⟩ := Response.mk.injEq .. ▸ h
      cases h2
      rfl

theorem createdIdsV2_mem (reqs : List (Nat × Body)) :
    ∀ users x, x ∈ createdIdsV2 users reqs →
      ∃ tb ∈ reqs, x = .str (Nat.repr tb.1) := by
  induction reqs with
  | nil => intro users x h; simp [createdIdsV2] at h
  | cons tb rest ih =>
    intro users x h
    obtain ⟨t, b⟩ := tb
    rw [createdIdsV2, List.mem_append] at h
    rcases h with h | h
    · refine ⟨(t, b), by simp, ?_⟩
      revert h
      split
      · next u hr =>
        intro h
        rw [List.mem_singleton] at h
        subst h
        exact postV2_id_of_201 users b t u hr
      · intro h; simp at h
    · obtain ⟨tb2, htb2, hx⟩ := ih (postV2 users b t).2 x h
      exact ⟨tb2, by simp [htb2], hx⟩

/-- C4, amended: over any sequence of variant-2 creates whose clock
values are strictly increasing (the spec's "monotonically-increasing-
enough source"), every id returned with 201 is a non-empty string and
all of them are pairwise distinct.  When two creates fall in the same
millisecond the ids collide (see the counterexample); variant 3 returns
number ids, not strings. -/
theorem c4_created_ids_fresh (users : List User) (reqs : List (Nat × Body))
    (hmono : (reqs.map Prod.fst).Pairwise (· < ·)) :
    (createdIdsV2 users reqs).Pairwise (· ≠ ·) ∧
    (∀ x ∈ createdIdsV2 users reqs, ∃ s, x = .str s ∧ s ≠ "") := by
  constructor
  · rw [List.pairwise_map] at hmono
    induction reqs generalizing users with
    | nil => simp [createdIdsV2]
    | cons tb rest ih =>
      obtain ⟨t, b⟩ := tb
      rw [List.pairwise_cons] at hmono
      obtain ⟨hlt, hrest⟩ := hmono
      rw [createdIdsV2]
      rw [List.pairwise_append]
      refine ⟨?_, ih (postV2 users b t).2 hrest, ?_⟩
      · split <;> simp
      · intro x hx y hy
        obtain ⟨tb2, htb2, hy2⟩ := createdIdsV2_mem rest (postV2 users b t).2 y hy
        have hxid : x = .str (Nat.repr t) := by
          revert hx
          split
          · next u hr =>
            intro hx
            rw [List.mem_singleton] at hx
            subst hx
            exact postV2_id_of_201 users b t u hr
          · intro hx; simp at hx
        subst hxid
        subst hy2
        intro hcontra
        have : Nat.repr t = Nat.repr tb2.1 := by
          injection hcontra
        have := natRepr_inj _ _ this
        have := hlt tb2 htb2
        omega
  · intro x hx
    obtain ⟨tb2, -, hx2⟩ := createdIdsV2_mem reqs users x hx
    exact ⟨Nat.repr tb2.1, hx2, natRepr_ne_empty tb2.1⟩

/-- C4, counterexample: two valid variant-2 creates landing in the same
millisecond (`Date.now() = 5` twice) both answer 201 and return the
same id `"5"` — the second id is not unique among previously created
ids. -/
theorem c4_counterexample :
    createdIdsV2 [] [(5, createBodyA), (5, createBodyB)] =
      [.str "5", .str "5"] ∧
    ¬ (createdIdsV2 [] [(5, createBodyA), (5, createBodyB)]).Pairwise
        (· ≠ ·) := by
  have h1 : createdIdsV2 [] [(5, createBodyA), (5, createBodyB)] =
      [.str "5", .str "5"] := by decide
  refine ⟨h1, fun h => ?_⟩
  rw [h1] at h
  exact (List.pairwise_cons.mp h).1 (.str "5") (by simp) rfl

/-- C4 witness: the amended statement applied to two concrete creates
at the strictly increasing clocks 5 and 7. -/
theorem c4_witness :
    (createdIdsV2 [] [(5, createBodyA), (7, createBodyB)]).Pairwise (· ≠ ·) ∧
    (∀ x ∈ createdIdsV2 [] [(5, createBodyA), (7, createBodyB)],
      ∃ s, x = .str s ∧ s ≠ "") :=
  c4_created_ids_fresh [] [(5, createBodyA), (7, createBodyB)]
    (by simp [List.pairwise_cons])

end UserApi
